import Mathlib

/-!
Shallow embedding of the AgentGateway core (`src/agentgateway/src`):
the RBAC engine (`rbac/engine.py`), the JWT validator (`auth/jwt_validator.py`),
the control-plane MCP router (`mcp_gateway.py`), the data-plane API router
(`api_gateway.py`), and the retry / circuit-breaker layer wrapping outbound
forwarding (tenacity `retry` + `circuitbreaker.circuit` decorators).

Python strings are Lean `String`; Python `None`-able values are `Option`;
truthiness checks (`if not x:`) on strings are modelled as the explicit
test against `none` / `""`; exceptions that a handler maps to an HTTP status
become explicit result constructors.
-/

namespace AgentGateway

/-! ### Python string primitives

The Python `str` methods the gateway uses, modelled by structural recursion
over the character list so that closed instances evaluate inside proofs. -/

/-- Python `str.lower()` (ASCII case folding, which is all the gateway's
department and role names use). -/
def lower (s : String) : String :=
  String.mk (s.data.map Char.toLower)

/-- Helper for `strip`: drop leading and trailing whitespace characters. -/
def trimChars (cs : List Char) : List Char :=
  ((cs.dropWhile Char.isWhitespace).reverse.dropWhile Char.isWhitespace).reverse

/-- Python `str.strip()` with no arguments. -/
def strip (s : String) : String :=
  String.mk (trimChars s.data)

/-- Helper for `split_whitespace`: accumulate the current word (reversed). -/
def splitWsAux : List Char → List Char → List String
  | [], acc => if acc.isEmpty then [] else [String.mk acc.reverse]
  | c :: cs, acc =>
      if c.isWhitespace then
        if acc.isEmpty then splitWsAux cs []
        else String.mk acc.reverse :: splitWsAux cs []
      else splitWsAux cs (c :: acc)

/-- Python `str.split()` with no arguments: split on whitespace runs,
dropping empty parts. -/
def split_whitespace (s : String) : List String :=
  splitWsAux s.data []

/-- Helper for `split_commas`. -/
def splitCommaAux : List Char → List Char → List String
  | [], acc => [String.mk acc.reverse]
  | c :: cs, acc =>
      if c == ',' then String.mk acc.reverse :: splitCommaAux cs []
      else splitCommaAux cs (c :: acc)

/-- Python `str.split(",")`: split on every comma, keeping empty parts
(so `"".split(",") == [""]`). -/
def split_commas (s : String) : List String :=
  splitCommaAux s.data []

/-! ### RBAC engine (`rbac/engine.py`) -/

/-- Embedding of the `Permission` pydantic model: a resource identifier and its allowed actions. -/
structure Permission where
  resource : String
  actions : List String
deriving DecidableEq, Repr

/-- Embedding of the `Role` pydantic model: name, description, list of permissions. -/
structure Role where
  name : String
  description : String
  permissions : List Permission
deriving DecidableEq, Repr

/-- Embedding of the `RBACPolicy` pydantic model: the full list of roles. -/
structure RBACPolicy where
  roles : List Role
deriving DecidableEq, Repr

/-- Embedding of `RBACEngine._role_map`: the dict comprehension
`{role.name: role for role in self.policy.roles}`. A Python dict keeps the
last binding for a duplicated key, so lookup scans the reversed list. -/
def roleMap (pol : RBACPolicy) (name : String) : Option Role :=
  pol.roles.reverse.find? (fun r => r.name == name)

/-- Embedding of `RBACEngine._load_policy`: `yaml.safe_load` + `RBACPolicy(**data)` inside
`try/except`; any failure (unreadable file, malformed YAML, schema error) is
caught and the empty policy `RBACPolicy(roles=[])` is returned. The parse
outcome is the `Option RBACPolicy` argument (`none` = the `except` branch). -/
def load_policy (parsed : Option RBACPolicy) : RBACPolicy :=
  match parsed with
  | some p => p
  | none => ⟨[]⟩

/-- Embedding of `RBACEngine.check_permission`: loops over the caller's role names; a role
missing from the role map is skipped; returns `True` as soon as some held
role has a permission with the exact resource and the action in its list. -/
def check_permission (pol : RBACPolicy) (roles : List String)
    (resource : String) (action : String) : Bool :=
  roles.any (fun role_name =>
    match roleMap pol role_name with
    | none => false
    | some role =>
        role.permissions.any (fun p =>
          p.resource == resource && p.actions.contains action))

/-- Embedding of `RBACEngine.get_accessible_resources`: resources of every permission of
every held role, collected into a set (modelled as a duplicate-free list). -/
def get_accessible_resources (pol : RBACPolicy) (roles : List String) : List String :=
  (roles.foldr
    (fun role_name acc =>
      match roleMap pol role_name with
      | none => acc
      | some role => role.permissions.map (fun p => p.resource) ++ acc)
    []).eraseDups

/-- Embedding of `RBACEngine.map_department_to_server`: fixed lookup table keyed by
`department.lower()`. -/
def map_department_to_server (department : String) : Option String :=
  if lower department == "finance" then some "mcp-finance-server"
  else if lower department == "hr" then some "mcp-hr-server"
  else if lower department == "legal" then some "mcp-legal-server"
  else none

/-! ### JWT validator (`auth/jwt_validator.py`) -/

/-- The claims payload of a decoded token. `groups` is the `cognito:groups`
claim with its Python default `[]`; the other claims are `Option` because
`claims.get(...)` may return `None`. -/
structure TokenClaims where
  token_use : Option String
  groups : List String
  sub : Option String
  username : Option String
  email : Option String
deriving DecidableEq, Repr

/-- Abstraction of a JWT on the wire. `kid` is the `kid` field of the
unverified header (`none` when absent). The RS256 cryptography is abstracted:
`sigValidKids` is the set of key ids whose key verifies this token's
signature, and `expired` is the outcome of the `exp` check, so that
`jwt.decode(token, key, ...)` succeeds exactly when the matched key id is in
`sigValidKids` and the token is unexpired (any `JWTError` it raises is caught
by `validate_token` and turned into `None`). -/
structure Token where
  kid : Option String
  sigValidKids : List String
  expired : Bool
  claims : TokenClaims
deriving DecidableEq, Repr

/-- The cached JWKS, as the list of key ids it contains (`jwks.get("keys")`
entries, each matched only through its `kid`). -/
abbrev JWKS := List String

/-- Embedding of `JWTValidator.validate_token`, given an already-fetched JWKS: reject when
the header has no (or an empty, hence falsy) `kid`; reject when no JWKS entry
has that `kid`; reject when signature verification or the expiration check
fails (`JWTError` → `None`); reject when the `token_use` claim is not
`"access"`; otherwise return the claims. -/
def validate_token (jwks : JWKS) (tok : Token) : Option TokenClaims :=
  match tok.kid with
  | none => none
  | some kid =>
      if kid == "" then none
      else if !(jwks.contains kid) then none
      else if !(tok.sigValidKids.contains kid) then none
      else if tok.expired then none
      else if tok.claims.token_use == some "access" then some tok.claims
      else none

/-- Embedding of `JWTValidator.extract_token`: `authorization_header.split()` (split on
whitespace runs, dropping empty parts), require exactly two parts with the
first equal to `bearer` case-insensitively, and return the second. -/
def extract_token (authorization_header : Option String) : Option String :=
  match authorization_header with
  | none => none
  | some a =>
      match split_whitespace a with
      | [p0, p1] => if lower p0 == "bearer" then some p1 else none
      | _ => none

/-- The dict returned by `JWTValidator.extract_user_info`. -/
structure UserInfo where
  user_id : Option String
  username : Option String
  roles : List String
  department : String
  email : Option String
deriving DecidableEq, Repr

/-- Embedding of `JWTValidator.extract_user_info`: roles come from `cognito:groups`;
the department is the first group, or `"unknown"` when there are none. -/
def extract_user_info (claims : TokenClaims) : UserInfo :=
  { user_id := claims.sub
    username := claims.username
    roles := claims.groups
    department := claims.groups.headD "unknown"
    email := claims.email }

/-- Mutable state of the `JWTValidator` singleton: the `self._jwks` cache. -/
structure JWTValidatorState where
  jwks_cache : Option JWKS
deriving DecidableEq, Repr

/-- Embedding of `JWTValidator.get_jwks`: when the cache is empty, perform the outbound
fetch (whose payload is the `fetched` argument) and store it; otherwise
return the cache untouched. The third component counts outbound fetches
performed by this call (0 or 1). -/
def get_jwks (st : JWTValidatorState) (fetched : JWKS) : JWKS × JWTValidatorState × Nat :=
  match st.jwks_cache with
  | some j => (j, st, 0)
  | none => (fetched, ⟨some fetched⟩, 1)

/-- One `validate_token` call seen with its state effects: it calls
`get_jwks` once at the start and then validates against the returned key
set; nothing later in the function touches the cache (a `kid` miss just
returns `None`). Result: (claims or `None`, new cache state, fetch count). -/
def validate_token_stateful (st : JWTValidatorState) (fetched : JWKS)
    (tok : Token) : Option TokenClaims × JWTValidatorState × Nat :=
  match get_jwks st fetched with
  | (jwks, st', n) => (validate_token jwks tok, st', n)

/-- Embedding of `api_gateway.validate_jwt_token` (the data-plane auth dependency):
missing or empty `Authorization` header → 401; malformed header → 401;
invalid token → 401; otherwise the extracted user info. The error value is
the HTTP status of the raised `HTTPException`. `parse` abstracts base64/JSON
decoding of the token string into its structured content; `jwks` is the key
set `validate_token` ends up using. -/
def validate_jwt_token (parse : String → Token) (jwks : JWKS)
    (authorization : Option String) : Except Nat UserInfo :=
  match authorization with
  | none => .error 401
  | some a =>
      if a == "" then .error 401
      else
        match extract_token (some a) with
        | none => .error 401
        | some s =>
            match validate_token jwks (parse s) with
            | none => .error 401
            | some claims => .ok (extract_user_info claims)

/-! ### Settings (`config.py`) and shared data models (`models.py`) -/

/-- The slice of `Settings` the router logic reads. `service_token` is
`Optional[str] = None`. The URL fields always hold strings (they have
non-empty defaults). -/
structure Settings where
  rbac_enabled : Bool
  department_isolation : Bool
  mcp_finance_url : String
  mcp_hr_url : String
  mcp_legal_url : String
  service_token : Option String
deriving DecidableEq, Repr

/-- The fields of an `AuditLog` entry the claims are about (timestamp,
user/service identity and client ip are filled from ambient context and not
constrained by any claim). -/
structure AuditEntry where
  department : Option String
  status_code : Nat
  error : Option String
deriving DecidableEq, Repr

/-- An `MCPRequest` body: `params` is `Optional[dict]`; the dict is modelled
as an association list of string keys to string values (the only values the
router inspects are the department / server type strings). -/
structure MCPRequest where
  id : String
  method : String
  params : Option (List (String × String))
deriving DecidableEq, Repr

/-! ### Control-plane router (`mcp_gateway.py`) -/

/-- Embedding of `validate_service_token` as a boolean: `True` iff no `HTTPException(401)`
is raised. Python truthiness: a missing or empty header fails
(`if not x_service_token`), and when `settings.service_token` is truthy the
header must equal it (`if settings.service_token and x != settings.service_token`). -/
def validate_service_token_ok (st : Settings) (x_service_token : Option String) : Bool :=
  match x_service_token with
  | none => false
  | some s =>
      if s == "" then false
      else
        match st.service_token with
        | none => true
        | some expected => expected == "" || s == expected

/-- Embedding of `get_mcp_server_url`: dict lookup on `server_type.lower()` against the
three configured upstream URLs. -/
def get_mcp_server_url (st : Settings) (server_type : String) : Option String :=
  if lower server_type == "finance" then some st.mcp_finance_url
  else if lower server_type == "hr" then some st.mcp_hr_url
  else if lower server_type == "legal" then some st.mcp_legal_url
  else none

/-- Embedding of `extract_department_from_request`: `params.get("department")` if truthy,
else `params.get("server_type")` if truthy, else `None`. A missing `params`
dict (or one where both keys are missing or empty) yields `None`. -/
def extract_department_from_request (req : MCPRequest) : Option String :=
  match req.params with
  | none => none
  | some ps =>
      let d := (ps.lookup "department").getD ""
      if d ≠ "" then some d
      else
        let s := (ps.lookup "server_type").getD ""
        if s ≠ "" then some s else none

/-- Embedding of `[role.strip() for role in x_user_roles.split(",")]`. -/
def parse_roles (s : String) : List String :=
  (split_commas s).map strip

/-- Python truthiness of the optional `X-User-Roles` header: present and
non-empty. -/
def roles_header_truthy (x_user_roles : Option String) : Bool :=
  match x_user_roles with
  | none => false
  | some s => !(s == "")

/-- Outcome of the forwarding part of the handler's `try` block, as observed
by the handler: a response whose body later parses as JSON (`ok`); a
response received, but whose body fails JSON decoding when the handler
evaluates `response.json()` (`okJsonError` — `json.JSONDecodeError` is not
an `httpx.HTTPError`, so it lands in the generic `except Exception` arm);
an `httpx.HTTPError` raised by forwarding; or any other exception raised by
forwarding (e.g. `tenacity.RetryError`, `CircuitBreakerError`). -/
inductive ForwardResult where
  | ok (status : Nat)
  | okJsonError (status : Nat) (msg : String)
  | httpError (msg : String)
  | otherError (msg : String)
deriving DecidableEq, Repr

/-- Which exit of `route_mcp_request` was taken; one constructor per
`return` / `raise` site, in source order. The `except Exception` raise site
appears twice because it is reachable along two histories with different
audit trails: `internalError` when forwarding itself raised a non-httpx
exception, and `jsonDecodeError` when `response.json()` raised after the
success-path audit entry had already been emitted. -/
inductive ExitPath where
  | authFail
  | missingDept
  | unknownDept
  | rbacDenied
  | isolationDenied
  | serverNotFound
  | success
  | jsonDecodeError
  | upstreamError
  | internalError
deriving DecidableEq, Repr

/-- The observable outcome of one `route_mcp_request` call: HTTP status of
the returned response or raised `HTTPException`, the audit entries created
during the call, and the exit site. -/
structure RouteResult where
  status : Nat
  audits : List AuditEntry
  path : ExitPath
deriving DecidableEq, Repr

/-- The `try/except` tail of `route_mcp_request`. On a received response the
success audit entry (carrying the upstream status) is created and logged
first, and only then is `response.json()` evaluated inside the returned
`JSONResponse`; if that JSON decoding raises, the generic `except Exception`
arm creates a second audit entry with status 500 — so that exit carries two
audit entries. An `httpx.HTTPError` from forwarding gives one 502 entry; any
other exception from forwarding gives one 500 entry. -/
def forward_stage (department : String) (fw : ForwardResult) : RouteResult :=
  match fw with
  | .ok status => ⟨status, [⟨some department, status, none⟩], .success⟩
  | .okJsonError status msg =>
      ⟨500, [⟨some department, status, none⟩, ⟨some department, 500, some msg⟩],
        .jsonDecodeError⟩
  | .httpError msg => ⟨502, [⟨some department, 502, some msg⟩], .upstreamError⟩
  | .otherError msg => ⟨500, [⟨some department, 500, some msg⟩], .internalError⟩

/-- The upstream URL lookup block: no configured server → 404 with no
audit; otherwise fall through to forwarding. -/
def resolve_and_forward (st : Settings) (department : String)
    (fw : ForwardResult) : RouteResult :=
  match get_mcp_server_url st department with
  | none => ⟨404, [], .serverNotFound⟩
  | some _url => forward_stage department fw

/-- The department-isolation block, entered only when
`settings.department_isolation` holds and the roles header is truthy:
declared department absent (case-insensitively) from the roles → 403 with
one audit entry "Department isolation violation"; otherwise fall through. -/
def isolation_stage (st : Settings) (x_user_roles : Option String)
    (department : String) (fw : ForwardResult) : RouteResult :=
  if st.department_isolation && roles_header_truthy x_user_roles then
    if ((parse_roles (x_user_roles.getD "")).map lower).contains (lower department) then
      resolve_and_forward st department fw
    else
      ⟨403, [⟨some department, 403, some "Department isolation violation"⟩],
        .isolationDenied⟩
  else resolve_and_forward st department fw

/-- The RBAC block, entered only when `settings.rbac_enabled` holds and the
roles header is truthy: unmappable department → 400 with no audit; roles
lacking `read` on the resolved resource → 403 with one audit entry
"RBAC permission denied"; otherwise fall through. -/
def rbac_stage (st : Settings) (pol : RBACPolicy) (x_user_roles : Option String)
    (department : String) (fw : ForwardResult) : RouteResult :=
  if st.rbac_enabled && roles_header_truthy x_user_roles then
    match map_department_to_server department with
    | none => ⟨400, [], .unknownDept⟩
    | some resource =>
        if check_permission pol (parse_roles (x_user_roles.getD "")) resource "read" then
          isolation_stage st x_user_roles department fw
        else
          ⟨403, [⟨some department, 403, some "RBAC permission denied"⟩], .rbacDenied⟩
  else isolation_stage st x_user_roles department fw

/-- Embedding of `route_mcp_request`, staged exactly as the source's sequential
early-return blocks: service-token check (401, no audit); department
extraction (400, no audit); RBAC block; department-isolation block;
upstream URL lookup (404, no audit); forwarding. -/
def route_mcp_request (st : Settings) (pol : RBACPolicy)
    (x_service_token : Option String) (x_user_roles : Option String)
    (req : MCPRequest) (fw : ForwardResult) : RouteResult :=
  if !(validate_service_token_ok st x_service_token) then
    ⟨401, [], .authFail⟩
  else
    match extract_department_from_request req with
    | none => ⟨400, [], .missingDept⟩
    | some department => rbac_stage st pol x_user_roles department fw

/-- One entry of the `/servers` listing. -/
structure ServerInfo where
  type : String
  url : String
  description : String
deriving DecidableEq, Repr

/-- Embedding of `list_mcp_servers`: service-token check (401), then: with a truthy
roles header, the servers whose resource id is accessible to the roles;
otherwise all three configured servers. -/
def list_mcp_servers (st : Settings) (pol : RBACPolicy)
    (x_service_token : Option String) (x_user_roles : Option String) :
    Except Nat (List ServerInfo) :=
  if !(validate_service_token_ok st x_service_token) then .error 401
  else if roles_header_truthy x_user_roles then
    let accessible := get_accessible_resources pol (parse_roles (x_user_roles.getD ""))
    .ok (accessible.foldr
      (fun resource acc =>
        if resource == "mcp-finance-server" then
          ⟨"finance", st.mcp_finance_url, "Finance MCP Server"⟩ :: acc
        else if resource == "mcp-hr-server" then
          ⟨"hr", st.mcp_hr_url, "HR MCP Server"⟩ :: acc
        else if resource == "mcp-legal-server" then
          ⟨"legal", st.mcp_legal_url, "Legal MCP Server"⟩ :: acc
        else acc)
      [])
  else
    .ok [⟨"finance", st.mcp_finance_url, "Finance MCP Server"⟩,
         ⟨"hr", st.mcp_hr_url, "HR MCP Server"⟩,
         ⟨"legal", st.mcp_legal_url, "Legal MCP Server"⟩]

/-! ### Data-plane handlers (`api_gateway.py`) -/

/-- Any of the three data-plane handlers (`process_file`, `get_status`,
`get_download_url`): the `validate_jwt_token` dependency raising 401 short-
circuits the handler with no audit entry. Otherwise the handler mirrors
`forward_stage`: on a received response the success audit entry is emitted
before `response.json()` is evaluated, so a JSON-decode failure reaches the
generic `except Exception` arm and emits a second 500 entry; an
`httpx.HTTPError` from forwarding gives one 502 entry, any other forwarding
exception one 500 entry. Returns (status, audits). -/
def data_plane_handler (auth : Except Nat UserInfo) (fw : ForwardResult) :
    Nat × List AuditEntry :=
  match auth with
  | .error code => (code, [])
  | .ok _ =>
      match fw with
      | .ok status => (status, [⟨none, status, none⟩])
      | .okJsonError status msg => (500, [⟨none, status, none⟩, ⟨none, 500, some msg⟩])
      | .httpError msg => (502, [⟨none, 502, some msg⟩])
      | .otherError msg => (500, [⟨none, 500, some msg⟩])

/-! ### Retry and circuit-breaker layer

`forward_to_mcp_server` is wrapped as `circuit(retry(f))`:
`@retry(stop=stop_after_attempt(3), wait=wait_exponential(...))` retries the
inner call on any exception up to 3 attempts and, once attempts are
exhausted, raises `tenacity.RetryError` (the default `reraise=False`), and
`@circuit(failure_threshold=5, recovery_timeout=60)` counts each failed
wrapped call, opens after 5 consecutive failures, and while open raises
`CircuitBreakerError` without invoking the wrapped callable. Neither
`RetryError` nor `CircuitBreakerError` is an `httpx.HTTPError`. -/

/-- Outcome of one attempt of the innermost coroutine: a response with a
status code, or a transport-level exception. -/
abbrev AttemptOutcome := Option Nat

/-- The tenacity `retry` wrapper with `stop_after_attempt(3)`: try attempt
0, 1, 2 in turn (the backoff sleeps do not affect the outcome); the first
response wins; three transport failures give `none` (`RetryError`).
Returns (result, attempts actually made). -/
def tenacity_call (attempts : Nat → AttemptOutcome) : Option Nat × Nat :=
  match attempts 0 with
  | some s => (some s, 1)
  | none =>
      match attempts 1 with
      | some s => (some s, 2)
      | none =>
          match attempts 2 with
          | some s => (some s, 3)
          | none => (none, 3)

/-- The mutable state of one `CircuitBreaker` instance: `_failure_count`,
whether `_state == OPEN`, and `_opened` (the monotonic time the circuit
last opened, meaningful only when it has opened at least once). -/
structure CircuitBreakerState where
  failure_count : Nat
  state_open : Bool
  opened : Nat
deriving DecidableEq, Repr

/-- The fresh breaker created by the decorator. -/
def circuit_init : CircuitBreakerState := ⟨0, false, 0⟩

/-- What one wrapped call raises or returns. -/
inductive CallOutcome where
  | response (status : Nat)
  | retryError
  | circuitOpenError
deriving DecidableEq, Repr

/-- One call through `circuit(retry(f))` at monotonic time `now`:
if the breaker is open and the 60-second recovery window has not elapsed,
raise `CircuitBreakerError` with zero attempts; otherwise run the retry
wrapper — success closes the circuit and resets the failure counter, a
`RetryError` increments the counter and (re)opens the circuit at `now` once
the count reaches the threshold 5 (a failed half-open probe re-opens the
window the same way). Returns (outcome, new breaker state, attempts made). -/
def circuit_call (cb : CircuitBreakerState) (now : Nat)
    (attempts : Nat → AttemptOutcome) :
    CallOutcome × CircuitBreakerState × Nat :=
  if cb.state_open && now < cb.opened + 60 then
    (.circuitOpenError, cb, 0)
  else
    match tenacity_call attempts with
    | (some s, used) => (.response s, ⟨0, false, cb.opened⟩, used)
    | (none, used) =>
        let fc := cb.failure_count + 1
        if 5 ≤ fc then (.retryError, ⟨fc, true, now⟩, used)
        else (.retryError, ⟨fc, cb.state_open, cb.opened⟩, used)

/-- Run a sequence of calls (each with its monotonic time and its attempt
oracle) through one breaker, collecting (outcome, attempts made) per call. -/
def run_call_sequence (cb : CircuitBreakerState) :
    List (Nat × (Nat → AttemptOutcome)) → List (CallOutcome × Nat) × CircuitBreakerState
  | [] => ([], cb)
  | (now, attempts) :: rest =>
      match circuit_call cb now attempts with
      | (outcome, cb', used) =>
          match run_call_sequence cb' rest with
          | (results, cbFinal) => ((outcome, used) :: results, cbFinal)

/-- How a `CallOutcome` reaches the route handler's `try/except`: a response
is returned normally; `RetryError` and `CircuitBreakerError` are not
`httpx.HTTPError`, so both land in the generic `except Exception` arm. -/
def forward_result_of_call : CallOutcome → ForwardResult
  | .response s => .ok s
  | .retryError => .otherError "RetryError"
  | .circuitOpenError => .otherError "CircuitBreakerError"

end AgentGateway

namespace AgentGateway

/-- C7: a failed policy parse yields the empty policy (no exception escapes:
`load_policy` is total), and under the empty policy every permission check
is denied. -/
theorem load_policy_fail_closed :
    load_policy none = ⟨[]⟩ ∧
    ∀ (roles : List String) (resource action : String),
      check_permission (load_policy none) roles resource action = false := by
  refine ⟨rfl, ?_⟩
  intro roles resource action
  induction roles with
  | nil => rfl
  | cons r rs ih =>
      simp only [check_permission, List.any_cons] at ih ⊢
      simp [load_policy, roleMap, ih]

/-- C8: `check_permission` is monotonic in the role set: a grant under roles
`R` is preserved when a further role `r` is adjoined. -/
theorem check_permission_monotone (pol : RBACPolicy) (R : List String)
    (r : String) (resource action : String)
    (h : check_permission pol R resource action = true) :
    check_permission pol (R ++ [r]) resource action = true := by
  simp only [check_permission, List.any_append, Bool.or_eq_true]
  exact Or.inl h

/-- Concrete instantiation of `check_permission_monotone`. -/
theorem check_permission_monotone_witness :
    check_permission ⟨[⟨"finance", "d", [⟨"mcp-finance-server", ["read"]⟩]⟩]⟩
        ["finance"] "mcp-finance-server" "read" = true ∧
    check_permission ⟨[⟨"finance", "d", [⟨"mcp-finance-server", ["read"]⟩]⟩]⟩
        (["finance"] ++ ["hr"]) "mcp-finance-server" "read" = true :=
  ⟨by decide,
   check_permission_monotone ⟨[⟨"finance", "d", [⟨"mcp-finance-server", ["read"]⟩]⟩]⟩
     ["finance"] "hr" "mcp-finance-server" "read" (by decide)⟩

/-- C5: a token that validates successfully yields, through the data-plane
auth dependency, exactly the user info extracted from its claims: the role
list is the `cognito:groups` claim and the department is its first entry,
defaulting to `"unknown"` when the claim is empty. -/
theorem verify_success_user_info (parse : String → Token) (jwks : JWKS)
    (a s : String) (tok : Token) (claims : TokenClaims)
    (ha : a ≠ "")
    (hx : extract_token (some a) = some s)
    (hp : parse s = tok)
    (hv : validate_token jwks tok = some claims) :
    validate_jwt_token parse jwks (some a) = .ok (extract_user_info claims) ∧
    (extract_user_info claims).roles = claims.groups ∧
    (extract_user_info claims).department = claims.groups.headD "unknown" := by
  refine ⟨?_, rfl, rfl⟩
  simp only [validate_jwt_token, beq_iff_eq, ha, if_false, hx, hp, hv]

/-- Concrete instantiation of `verify_success_user_info`: a good access token
with groups `["finance", "auditor"]`. -/
theorem verify_success_user_info_witness :
    validate_jwt_token
        (fun _ => ⟨some "k1", ["k1"], false,
          ⟨some "access", ["finance", "auditor"], some "sub1", some "alice", none⟩⟩)
        ["k1"] (some "Bearer t") =
      .ok ⟨some "sub1", some "alice", ["finance", "auditor"], "finance", none⟩ ∧
    (extract_user_info
        ⟨some "access", ["finance", "auditor"], some "sub1", some "alice", none⟩).roles =
      ["finance", "auditor"] ∧
    (extract_user_info
        ⟨some "access", ["finance", "auditor"], some "sub1", some "alice", none⟩).department =
      (["finance", "auditor"] : List String).headD "unknown" :=
  verify_success_user_info
    (fun _ => ⟨some "k1", ["k1"], false,
      ⟨some "access", ["finance", "auditor"], some "sub1", some "alice", none⟩⟩)
    ["k1"] "Bearer t" "t"
    ⟨some "k1", ["k1"], false,
      ⟨some "access", ["finance", "auditor"], some "sub1", some "alice", none⟩⟩
    ⟨some "access", ["finance", "auditor"], some "sub1", some "alice", none⟩
    (by decide) (by decide) rfl (by decide)

/-- C6: a token whose `token_use` claim is not `"access"`, or whose header
key id matches no key in the cached key set, fails validation, and the
data-plane surface answers 401. -/
theorem verify_reject_wrong_use_or_unknown_kid (parse : String → Token)
    (jwks : JWKS) (a s : String) (tok : Token)
    (h : tok.claims.token_use ≠ some "access" ∨
      ∀ k, tok.kid = some k → jwks.contains k = false)
    (ha : a ≠ "")
    (hx : extract_token (some a) = some s)
    (hp : parse s = tok) :
    validate_token jwks tok = none ∧
    validate_jwt_token parse jwks (some a) = .error 401 := by
  have hvt : validate_token jwks tok = none := by
    rcases h with h | h
    · cases htk : tok.kid with
      | none => simp [validate_token, htk]
      | some kid => simp [validate_token, htk, h]
    · cases htk : tok.kid with
      | none => simp [validate_token, htk]
      | some kid =>
          have hk : kid ∉ jwks := by simpa using h kid htk
          simp [validate_token, htk, hk]
  refine ⟨hvt, ?_⟩
  simp only [validate_jwt_token, beq_iff_eq, ha, if_false, hx, hp, hvt]

/-- Concrete instantiation of `verify_reject_wrong_use_or_unknown_kid`: an
identity token (`token_use = "id"`) is rejected with 401. -/
theorem verify_reject_witness :
    validate_token ["k1"]
        ⟨some "k1", ["k1"], false, ⟨some "id", ["finance"], none, none, none⟩⟩ = none ∧
    validate_jwt_token
        (fun _ => ⟨some "k1", ["k1"], false, ⟨some "id", ["finance"], none, none, none⟩⟩)
        ["k1"] (some "Bearer t") = .error 401 :=
  verify_reject_wrong_use_or_unknown_kid
    (fun _ => ⟨some "k1", ["k1"], false, ⟨some "id", ["finance"], none, none, none⟩⟩)
    ["k1"] "Bearer t" "t"
    ⟨some "k1", ["k1"], false, ⟨some "id", ["finance"], none, none, none⟩⟩
    (Or.inl (by decide)) (by decide) (by decide) rfl

/-- C9 (counterexample): with the key-set cache already populated (holding
only `kidA`), a token bearing the unknown key id `kidB` misses — yet zero
outbound fetches are performed and the cache is left unchanged, even though
a fresh fetch (the second argument) would have contained `kidB`. This
refutes "the cache is refreshed exactly once, on the first such miss". -/
theorem jwks_miss_no_refresh_counterexample :
    validate_token_stateful ⟨some ["kidA"]⟩ ["kidA", "kidB"]
        ⟨some "kidB", ["kidB"], false, ⟨some "access", ["finance"], none, none, none⟩⟩ =
      (none, ⟨some ["kidA"]⟩, 0) := by decide

/-- C1 (counterexample): a control-plane request that fails validation (no
department in `params`, the 400 exit) is handled with zero audit entries,
refuting "exactly one audit entry on every exit path". -/
theorem audit_missing_on_validation_failure_counterexample :
    route_mcp_request ⟨true, true, "http://f", "http://h", "http://l", some "secret"⟩
        ⟨[]⟩ (some "secret") none ⟨"1", "tools/list", none⟩ (.ok 200) =
      ⟨400, [], .missingDept⟩ := by decide

/-- C1 (amended): the audit count of a handled request is fixed by its exit
path. On the control-plane route: the authentication-failure (401),
validation-failure (400) and unresolved-department (404) exits emit no audit
entry; the success, authorization-denial (403), upstream-failure (502)
exits, and the internal-error (500) exit reached when forwarding itself
raises, each emit exactly one; the internal-error (500) exit reached when
the upstream body fails JSON decoding emits two (the success-status entry,
already logged, followed by the 500 entry). The data-plane handlers behave
the same way: none on the 401 exit, two on the JSON-decode-failure exit,
one otherwise. -/
theorem audit_exactly_once_amended (st : Settings) (pol : RBACPolicy)
    (x_service_token x_user_roles : Option String) (req : MCPRequest)
    (fw : ForwardResult) (auth : Except Nat UserInfo) (fwd : ForwardResult) :
    ((route_mcp_request st pol x_service_token x_user_roles req fw).audits.length =
      match (route_mcp_request st pol x_service_token x_user_roles req fw).path with
      | .authFail => 0
      | .missingDept => 0
      | .unknownDept => 0
      | .serverNotFound => 0
      | .jsonDecodeError => 2
      | _ => 1) ∧
    ((data_plane_handler auth fwd).2.length =
      match auth, fwd with
      | .error _, _ => 0
      | .ok _, .okJsonError _ _ => 2
      | .ok _, _ => 1) := by
  constructor
  · unfold route_mcp_request rbac_stage isolation_stage resolve_and_forward forward_stage
    repeat' split <;> try rfl
  · unfold data_plane_handler
    repeat' split <;> try rfl

/-- Instantiation of `audit_exactly_once_amended` (its binders are not
propositions, but a concrete run documents both conjuncts, the route on the
502 exit and the data plane on the two-audit JSON-decode-failure exit). -/
theorem audit_exactly_once_amended_witness :
    ((route_mcp_request ⟨true, true, "http://f", "http://h", "http://l", some "s"⟩
        ⟨[]⟩ (some "s") none ⟨"1", "m", some [("department", "finance")]⟩
        (.httpError "timeout")).audits.length =
      match (route_mcp_request ⟨true, true, "http://f", "http://h", "http://l", some "s"⟩
        ⟨[]⟩ (some "s") none ⟨"1", "m", some [("department", "finance")]⟩
        (.httpError "timeout")).path with
      | .authFail => 0
      | .missingDept => 0
      | .unknownDept => 0
      | .serverNotFound => 0
      | .jsonDecodeError => 2
      | _ => 1) ∧
    ((data_plane_handler (.ok ⟨none, none, [], "unknown", none⟩)
        (.okJsonError 200 "Expecting value")).2.length =
      match (Except.ok ⟨none, none, [], "unknown", none⟩ : Except Nat UserInfo),
          (ForwardResult.okJsonError 200 "Expecting value") with
      | .error _, _ => 0
      | .ok _, .okJsonError _ _ => 2
      | .ok _, _ => 1) :=
  audit_exactly_once_amended ⟨true, true, "http://f", "http://h", "http://l", some "s"⟩
    ⟨[]⟩ (some "s") none ⟨"1", "m", some [("department", "finance")]⟩
    (.httpError "timeout") (.ok ⟨none, none, [], "unknown", none⟩)
    (.okJsonError 200 "Expecting value")

/-- C2 (counterexample): with RBAC and department isolation both enabled, a
control-plane request with a valid service token and no `X-User-Roles`
header is forwarded to the finance upstream and answered with the upstream's
200, refuting "the request is not forwarded". -/
theorem forwarded_without_roles_counterexample :
    route_mcp_request ⟨true, true, "http://f", "http://h", "http://l", some "secret"⟩
        ⟨[]⟩ (some "secret") none ⟨"1", "tools/call", some [("department", "finance")]⟩
        (.ok 200) =
      ⟨200, [⟨some "finance", 200, none⟩], .success⟩ := by decide

/-- C2 (amended): when the `X-User-Roles` header is absent, both the RBAC
check and the department-isolation check are skipped, and a request with a
valid service token and a resolvable department is forwarded to the
upstream (its exit is determined solely by the forwarding outcome). -/
theorem no_roles_header_skips_authorization (st : Settings) (pol : RBACPolicy)
    (x_service_token : Option String) (req : MCPRequest) (fw : ForwardResult)
    (d url : String)
    (htok : validate_service_token_ok st x_service_token = true)
    (hd : extract_department_from_request req = some d)
    (hu : get_mcp_server_url st d = some url) :
    (route_mcp_request st pol x_service_token none req fw).path =
      (match fw with
       | .ok _ => .success
       | .okJsonError _ _ => .jsonDecodeError
       | .httpError _ => .upstreamError
       | .otherError _ => .internalError) := by
  simp only [route_mcp_request, htok, Bool.not_true, Bool.false_eq_true, if_false, hd]
  cases fw <;>
    simp [rbac_stage, isolation_stage, resolve_and_forward, forward_stage,
      roles_header_truthy, hu]

/-- Concrete instantiation of `no_roles_header_skips_authorization`. -/
theorem no_roles_header_skips_authorization_witness :
    (route_mcp_request ⟨true, true, "http://f", "http://h", "http://l", some "t"⟩
        ⟨[]⟩ (some "t") none ⟨"2", "tools/call", some [("server_type", "hr")]⟩
        (.ok 201)).path = .success :=
  no_roles_header_skips_authorization
    ⟨true, true, "http://f", "http://h", "http://l", some "t"⟩ ⟨[]⟩ (some "t")
    ⟨"2", "tools/call", some [("server_type", "hr")]⟩ (.ok 201) "hr" "http://h"
    (by decide) (by decide) (by decide)

/-- C3: with RBAC and department isolation enabled and a roles header
present, a caller whose roles hold `read` on the resolved resource but whose
declared department is (case-insensitively) absent from the roles is denied
with 403 and the single audit reason "Department isolation violation". -/
theorem department_isolation_independent (st : Settings) (pol : RBACPolicy)
    (x_service_token : Option String) (rolesHeader : String) (req : MCPRequest)
    (fw : ForwardResult) (d resource : String)
    (hrb : st.rbac_enabled = true)
    (hiso : st.department_isolation = true)
    (htok : validate_service_token_ok st x_service_token = true)
    (hs : rolesHeader ≠ "")
    (hd : extract_department_from_request req = some d)
    (hres : map_department_to_server d = some resource)
    (hperm : check_permission pol (parse_roles rolesHeader) resource "read" = true)
    (hnot : ((parse_roles rolesHeader).map lower).contains (lower d) = false) :
    route_mcp_request st pol x_service_token (some rolesHeader) req fw =
      ⟨403, [⟨some d, 403, some "Department isolation violation"⟩], .isolationDenied⟩ := by
  have htru : roles_header_truthy (some rolesHeader) = true := by
    simp [roles_header_truthy, hs]
  have hnot' : lower d ∉ (parse_roles rolesHeader).map lower := by
    simpa using hnot
  simp [route_mcp_request, rbac_stage, isolation_stage, htok, hd, htru, hrb, hiso,
    hres, hperm, hnot']

/-- Concrete instantiation of `department_isolation_independent`: the
`finance` role holds `read` on the HR server, yet declaring department `hr`
is denied by isolation. -/
theorem department_isolation_independent_witness :
    route_mcp_request ⟨true, true, "http://f", "http://h", "http://l", some "secret"⟩
        ⟨[⟨"finance", "desc", [⟨"mcp-hr-server", ["read"]⟩]⟩]⟩ (some "secret")
        (some "finance") ⟨"3", "tools/call", some [("department", "hr")]⟩ (.ok 200) =
      ⟨403, [⟨some "hr", 403, some "Department isolation violation"⟩], .isolationDenied⟩ :=
  department_isolation_independent
    ⟨true, true, "http://f", "http://h", "http://l", some "secret"⟩
    ⟨[⟨"finance", "desc", [⟨"mcp-hr-server", ["read"]⟩]⟩]⟩ (some "secret") "finance"
    ⟨"3", "tools/call", some [("department", "hr")]⟩ (.ok 200) "hr" "mcp-hr-server"
    rfl rfl (by decide) (by decide) (by decide) (by decide) (by decide) (by decide)

/-- C4 (code evaluated at the failing input): five consecutive calls whose
three attempts each fail at transport level exhaust their retries
(`RetryError`, 3 attempts each) and open the circuit at t = 40s; the sixth
call at t = 50s raises `CircuitBreakerError` with zero attempts (no outbound
network I/O). Both exceptions miss the handler's `except httpx.HTTPError`
arm, so the route answers 500 ("Internal server error"), not the claimed
502, on both the retries-exhausted and the circuit-open paths. -/
theorem upstream_failure_returns_500_not_502 :
    (run_call_sequence circuit_init
        [(0, fun _ => none), (10, fun _ => none), (20, fun _ => none),
         (30, fun _ => none), (40, fun _ => none), (50, fun _ => none)]).1 =
      [(.retryError, 3), (.retryError, 3), (.retryError, 3), (.retryError, 3),
       (.retryError, 3), (.circuitOpenError, 0)] ∧
    (run_call_sequence circuit_init
        [(0, fun _ => none), (10, fun _ => none), (20, fun _ => none),
         (30, fun _ => none), (40, fun _ => none), (50, fun _ => none)]).2 =
      ⟨5, true, 40⟩ ∧
    route_mcp_request ⟨true, true, "http://f", "http://h", "http://l", some "secret"⟩
        ⟨[]⟩ (some "secret") none ⟨"6", "tools/call", some [("department", "legal")]⟩
        (forward_result_of_call .circuitOpenError) =
      ⟨500, [⟨some "legal", 500, some "CircuitBreakerError"⟩], .internalError⟩ ∧
    route_mcp_request ⟨true, true, "http://f", "http://h", "http://l", some "secret"⟩
        ⟨[]⟩ (some "secret") none ⟨"5", "tools/call", some [("department", "legal")]⟩
        (forward_result_of_call .retryError) =
      ⟨500, [⟨some "legal", 500, some "RetryError"⟩], .internalError⟩ := by
  refine ⟨?_, ?_, by decide, by decide⟩ <;> rfl

/-- C10: a `/servers` request with a valid service token and no
`X-User-Roles` header is answered with all three configured upstream servers
(finance, hr, legal), unfiltered. -/
theorem list_servers_all_without_roles (st : Settings) (pol : RBACPolicy)
    (x_service_token : Option String)
    (htok : validate_service_token_ok st x_service_token = true) :
    list_mcp_servers st pol x_service_token none =
      .ok [⟨"finance", st.mcp_finance_url, "Finance MCP Server"⟩,
           ⟨"hr", st.mcp_hr_url, "HR MCP Server"⟩,
           ⟨"legal", st.mcp_legal_url, "Legal MCP Server"⟩] := by
  simp [list_mcp_servers, htok, roles_header_truthy]

/-- Concrete instantiation of `list_servers_all_without_roles`. -/
theorem list_servers_all_without_roles_witness :
    list_mcp_servers ⟨true, true, "http://f", "http://h", "http://l", some "secret"⟩
        ⟨[]⟩ (some "secret") none =
      .ok [⟨"finance", "http://f", "Finance MCP Server"⟩,
           ⟨"hr", "http://h", "HR MCP Server"⟩,
           ⟨"legal", "http://l", "Legal MCP Server"⟩] :=
  list_servers_all_without_roles
    ⟨true, true, "http://f", "http://h", "http://l", some "secret"⟩ ⟨[]⟩
    (some "secret") (by decide)

/-- C9 (amended): the key set is fetched at most once per process, and only
when the cache is empty (first use); a key-id miss never triggers a refresh,
and a populated cache is never replaced. -/
theorem jwks_fetch_only_on_empty_cache (st : JWTValidatorState)
    (fetched : JWKS) (tok : Token) :
    (validate_token_stateful st fetched tok).2.2 =
      (match st.jwks_cache with | none => 1 | some _ => 0) ∧
    (validate_token_stateful st fetched tok).2.1 =
      ⟨some (st.jwks_cache.getD fetched)⟩ := by
  cases st with
  | mk c => cases c <;> simp [validate_token_stateful, get_jwks]

end AgentGateway
